import Mathlib

/-!
Shallow embedding of
`src/vs/workbench/contrib/chat/browser/chatAttachmentModel/chatPromptAttachmentsCollection.ts`
and proofs about its pure encoders and its collection operations.

Pure functions of the source (`createPromptVariableId`, `toChatVariable`,
`isPromptFileChatVariable`) become Lean functions; the stateful collection
(`ChatPromptAttachmentsCollection`) becomes explicit state passing over an
insertion-ordered association list (mirroring the insertion-ordered `DisposableMap`
over a JS `Map`), with the observable side effects of each operation (event firings,
listener wiring, handle disposal, resolution trigger) recorded in an explicit trace
of steps.
-/

namespace Chat

/-- A URI, as consumed by the source: the collection keys attachments by the `path`
component and stringifies URIs for variable ids.  The remaining components only
serve to distinguish URIs that share a path. -/
structure URI where
  scheme : String
  authority : String
  path : String
  query : String
  fragment : String
deriving DecidableEq, Repr

/-- Modelled from the spec: `URI.toString` lives in `base/common/uri.js`, which is not
under `src/`; the spec only relies on it being "the string form of the URI", so we
format the components in the usual scheme://authority/path?query#fragment shape. -/
def URI.toString (u : URI) : String :=
  u.scheme ++ ("://") ++ u.authority ++ u.path ++
    (if u.query = "" then "" else ("?") ++ u.query) ++
    (if u.fragment = "" then "" else ("#") ++ u.fragment)

/-- Modelled from the spec: `basename` lives in `base/common/resources.js`, which is
not under `src/`; per the spec it yields the `<basename>` (last path segment) of the
URI. -/
def basename (uri : URI) : String :=
  (uri.path.splitOn ("/")).getLastD ""

/-- Embedding of the JS `String.prototype.startsWith` used by the source
(`variable.name.startsWith('prompt:')`): the search string is a prefix of the
receiver. -/
def strStartsWith (s pre : String) : Bool :=
  pre.data.isPrefixOf s.data

/-- A reference-tree node as consumed by `toChatVariable`: the
`Pick<IPromptFileReference, 'uri' | 'isPromptFile'>` shape. -/
structure RefNode where
  uri : URI
  isPromptFile : Bool
deriving DecidableEq, Repr

/-- The produced variable entry shape (`IChatRequestVariableEntry` restricted to the
fields this source writes): id, name, value, kind, optional modelDescription. -/
structure IChatRequestVariableEntry where
  id : String
  name : String
  value : URI
  kind : String
  modelDescription : Option String
deriving DecidableEq, Repr

/-- Source `createPromptVariableId` (lines 25-39): fixed namespace `pref`ix, `.root`
suffix appended exactly when `isRoot`, then the separator `__` and the stringified
URI. -/
def createPromptVariableId (uri : URI) (isRoot : Bool) : String :=
  let pref := "vscode.prompt.instructions"
  let pref := if isRoot then pref ++ (".root") else pref
  pref ++ ("__") ++ uri.toString

/-- Source `toChatVariable` (lines 53-82): default id is the stringified URI,
overridden by `createPromptVariableId` for prompt files; name is
`prompt:<basename>` or `file:<basename>`; modelDescription only for prompt files;
kind is always `file`. -/
def toChatVariable (reference : RefNode) (isRoot : Bool) : IChatRequestVariableEntry :=
  let uri := reference.uri
  let isPromptFile := reference.isPromptFile
  let id := if isPromptFile then createPromptVariableId uri isRoot else uri.toString
  let name := if isPromptFile then ("prompt:") ++ basename uri else ("file:") ++ basename uri
  let modelDescription := if isPromptFile then some ("Prompt instructions file") else none
  { id := id, name := name, value := uri, kind := "file", modelDescription := modelDescription }

/-- Modelled from the spec: `isChatRequestFileEntry` lives in `common/chatModel.js`,
which is not under `src/`; per the spec it holds exactly for file-kind entries. -/
def isChatRequestFileEntry (v : IChatRequestVariableEntry) : Bool :=
  v.kind == "file"

/-- Source `isPromptFileChatVariable` (lines 84-86). -/
def isPromptFileChatVariable (v : IChatRequestVariableEntry) : Bool :=
  isChatRequestFileEntry v && strStartsWith v.name ("prompt:")

/-- The eventual outcome of a settle promise: fulfilled, or rejected with a message. -/
inductive SettleOutcome where
  | fulfilled
  | rejected (message : String)
deriving DecidableEq, Repr

/-- Modelled from the spec: the handle's reference tree root (the
`IPromptFileReference` of `chatPromptAttachmentModel.ts`, which is not under
`src/`) — a uri, a prompt-file flag, and the lazily grown ordered
`allValidReferences` sequence of child nodes. -/
structure PromptReference where
  uri : URI
  isPromptFile : Bool
  allValidReferences : List RefNode
deriving DecidableEq, Repr

/-- Modelled from the spec: a `ChatPromptAttachmentModel` handle
(`chatPromptAttachmentModel.ts` is not under `src/`) as the collection observes it —
its reference tree root and the eventual outcome of its settle promise (which may
reflect an internal resolution failure). -/
structure ChatPromptAttachmentModel where
  reference : PromptReference
  settleOutcome : SettleOutcome
deriving DecidableEq, Repr

/-- Modelled from the spec: the insertion-ordered `DisposableMap` of
`base/common/lifecycle.js` (not under `src/`), embedded as an association list in
insertion order. -/
abbrev DisposableMap : Type :=
  List (String × ChatPromptAttachmentModel)

/-- Key membership, as the JS `Map.has` used by the source. -/
def DisposableMap.has (m : DisposableMap) (key : String) : Bool :=
  (List.lookup key m).isSome

/-- Key lookup, as the JS `Map.get`. -/
def DisposableMap.get? (m : DisposableMap) (key : String) : Option ChatPromptAttachmentModel :=
  List.lookup key m

/-- JS `Map.set` semantics: an existing key keeps its position and gets the new
value; a fresh key is appended at the end of the insertion order. -/
def DisposableMap.set (m : DisposableMap) (key : String) (v : ChatPromptAttachmentModel) :
    DisposableMap :=
  if m.has key then
    List.map (fun p => if p.1 == key then (key, v) else p) m
  else
    m ++ [(key, v)]

/-- Modelled from the spec: `DisposableMap.deleteAndLeak` drops the entry from the
bookkeeping without disposing the held value. -/
def DisposableMap.deleteAndLeak (m : DisposableMap) (key : String) : DisposableMap :=
  List.filter (fun p => !(p.1 == key)) m

/-- The live handles in insertion order, as the JS `[...map.values()]` spread the
source uses for its snapshots. -/
def DisposableMap.valuesList (m : DisposableMap) : List ChatPromptAttachmentModel :=
  List.map (fun p => p.2) m

/-- One observable side-effect step of a collection operation: wiring the
per-handle update / dispose listeners, storing the handle, triggering its
resolution, disposing a handle, and firing the `onAdd` / `onRemove` / `onUpdate`
emitters. -/
inductive Step where
  | wireUpdateListener (h : ChatPromptAttachmentModel)
  | wireDisposeListener (h : ChatPromptAttachmentModel)
  | store (key : String) (h : ChatPromptAttachmentModel)
  | resolve (h : ChatPromptAttachmentModel)
  | disposeHandle (h : ChatPromptAttachmentModel)
  | fireAdd (h : ChatPromptAttachmentModel)
  | fireRemove (h : ChatPromptAttachmentModel)
  | fireUpdate
deriving DecidableEq, Repr

/-- The collection state: its keyed set of attachment handles (source field
`attachments`). -/
structure CollectionState where
  attachments : DisposableMap
deriving DecidableEq, Repr

namespace ChatPromptAttachmentsCollection

/-- Source `chatAttachments` getter (lines 148-176), transcribed loop-for-loop: a
result accumulator; for each attachment of the snapshot, push the non-root variable
for every node of `allValidReferences`, then push the root variable for the model's
own reference with `isPromptFile` forced to `true`. -/
def chatAttachments (st : CollectionState) : List IChatRequestVariableEntry :=
  let attachments := st.attachments.valuesList
  List.foldl
    (fun result attachment =>
      let reference := attachment.reference
      (result ++ List.map (fun link => toChatVariable link false) reference.allValidReferences) ++
        [toChatVariable { uri := reference.uri, isPromptFile := true } true])
    [] attachments

/-- The spec's description of the `chatAttachments` view, written from its words
rather than from the loop: per live handle in insertion order, one non-root entry
per node of `allValidReferences` in that array's order, followed by exactly one
root entry for the handle's top-level reference with `isPromptFile` forced to
`true`. -/
def chatAttachmentsSpec (st : CollectionState) : List IChatRequestVariableEntry :=
  List.flatMap st.attachments.valuesList
    (fun attachment =>
      List.map (fun link => toChatVariable link false)
          attachment.reference.allValidReferences ++
        [toChatVariable { uri := attachment.reference.uri, isPromptFile := true } true])

/-- Embedding of the JS `Promise.allSettled` combinator the source awaits: it always
fulfills, carrying the list of individual outcomes, and never rejects. -/
def promiseAllSettled (ps : List SettleOutcome) : SettleOutcome × List SettleOutcome :=
  (SettleOutcome.fulfilled, ps)

/-- Source `allSettled` (lines 182-190): snapshot the currently live handles, then
await `Promise.allSettled` of their settle promises.  The embedding returns the
snapshot that was awaited together with the outcome of the awaited combinator. -/
def allSettled (st : CollectionState) : List ChatPromptAttachmentModel × SettleOutcome :=
  let attachments := st.attachments.valuesList
  (attachments, (promiseAllSettled (List.map (fun a => a.settleOutcome) attachments)).1)

/-- Source `onDispose` callback installed by `add` (lines 215-221): drop the entry
with `deleteAndLeak` (never the disposing variant), then fire `onUpdate`, then fire
`onRemove` with the handle. -/
def onDisposeCallback (st : CollectionState) (uriPath : String)
    (instruction : ChatPromptAttachmentModel) : CollectionState × List Step :=
  ({ attachments := st.attachments.deleteAndLeak uriPath },
    [Step.fireUpdate, Step.fireRemove instruction])

/-- Source `add` (lines 207-230), with the handle factory (`initService.createInstance`)
passed explicitly: if the key is present return `true`; otherwise wire the update
listener, wire the dispose listener, store the handle under `uri.path`, trigger its
resolution, fire `onAdd`, fire `onUpdate`, and return `false`.  The result is
(returned boolean, new state, trace of observable steps in order). -/
def add (create : URI → ChatPromptAttachmentModel) (st : CollectionState) (uri : URI) :
    Bool × CollectionState × List Step :=
  if st.attachments.has uri.path then
    (true, st, [])
  else
    let instruction := create uri
    (false, { attachments := st.attachments.set uri.path instruction },
      [Step.wireUpdateListener instruction, Step.wireDisposeListener instruction,
        Step.store uri.path instruction, Step.resolve instruction,
        Step.fireAdd instruction, Step.fireUpdate])

/-- Modelled from the spec: `DisposableMap.deleteAndDispose` (lifecycle.js, not under
`src/`) deletes the entry from the map and then disposes the held value; disposing
the handle fires its dispose listeners, i.e. the `onDisposeCallback` the collection
installed in `add` (whose own `deleteAndLeak` is then a no-op on the already-deleted
key). -/
def deleteAndDispose (st : CollectionState) (key : String) : CollectionState × List Step :=
  match st.attachments.get? key with
  | none => (st, [])
  | some h =>
      let st1 : CollectionState := { attachments := st.attachments.deleteAndLeak key }
      let res := onDisposeCallback st1 key h
      (res.1, Step.disposeHandle h :: res.2)

/-- Source `remove` (lines 236-245): absent key is a no-op returning `this`;
otherwise `deleteAndDispose` the key and return `this`. -/
def remove (st : CollectionState) (uri : URI) : CollectionState × List Step :=
  if st.attachments.has uri.path then
    deleteAndDispose st uri.path
  else
    (st, [])

/-- Number of entries stored under a key. -/
def countKey (m : DisposableMap) (key : String) : Nat :=
  (List.filter (fun p => p.1 == key) m).length

end ChatPromptAttachmentsCollection

/-! Concrete sample values, used to instantiate theorems with hypotheses. -/

/-- A concrete prompt-file URI. -/
def sampleUri : URI :=
  { scheme := "file", authority := "", path := "/a/b.prompt.md", query := "", fragment := "" }

/-- A URI that differs from `sampleUri` only in its scheme, sharing its path. -/
def sampleUri2 : URI :=
  { scheme := "untitled", authority := "", path := "/a/b.prompt.md", query := "", fragment := "" }

/-- A concrete attachment handle for `sampleUri`. -/
def sampleHandle : ChatPromptAttachmentModel :=
  { reference := { uri := sampleUri, isPromptFile := true, allValidReferences := [] },
    settleOutcome := SettleOutcome.fulfilled }

/-- A concrete handle factory, standing in for `initService.createInstance`. -/
def sampleCreate : URI → ChatPromptAttachmentModel :=
  fun u =>
    { reference := { uri := u, isPromptFile := true, allValidReferences := [] },
      settleOutcome := SettleOutcome.fulfilled }

/-- The empty collection state. -/
def emptyState : CollectionState :=
  { attachments := [] }

/-- A collection state holding exactly `sampleHandle` under `sampleUri`'s key. -/
def sampleState : CollectionState :=
  { attachments := [(sampleUri.path, sampleHandle)] }

/-! Helper lemmas. -/

theorem isPrefixOf_append_self (l t : List Char) : List.isPrefixOf l (l ++ t) = true := by
  induction l with
  | nil => simp [List.isPrefixOf]
  | cons a l ih => simp [List.isPrefixOf, ih]

theorem strStartsWith_append (pre s : String) : strStartsWith (pre ++ s) pre = true := by
  unfold strStartsWith
  rw [String.data_append]
  exact isPrefixOf_append_self _ _

theorem strStartsWith_file_not_prompt (s : String) :
    strStartsWith (("file:") ++ s) ("prompt:") = false := by
  unfold strStartsWith
  rw [String.data_append]
  show List.isPrefixOf ('p' :: ("rompt:").data) ('f' :: ("ile:").data ++ s.data) = false
  simp [List.isPrefixOf]

/-! Theorems for the pure encoders. -/

/-- C3: the variable entry produced by `toChatVariable` has id `uri.toString()` for
non-prompt files and `"vscode.prompt.instructions[.root]__<uri>"` for prompt files
(the `.root` suffix exactly when the node is the root); its name is
`"prompt:<basename>"` for prompt files and `"file:<basename>"` otherwise; its
modelDescription is the fixed string exactly for prompt files; and it is a file-kind
entry valued at the node's uri. -/
theorem toChatVariable_fields (reference : RefNode) (isRoot : Bool) :
    (toChatVariable reference isRoot).id =
        (if reference.isPromptFile then
          ("vscode.prompt.instructions") ++ (if isRoot then (".root") else "") ++ ("__") ++
            reference.uri.toString
        else reference.uri.toString) ∧
    (toChatVariable reference isRoot).name =
        (if reference.isPromptFile then ("prompt:") ++ basename reference.uri
        else ("file:") ++ basename reference.uri) ∧
    (toChatVariable reference isRoot).modelDescription =
        (if reference.isPromptFile then some ("Prompt instructions file") else none) ∧
    (toChatVariable reference isRoot).kind = "file" ∧
    (toChatVariable reference isRoot).value = reference.uri := by
  obtain ⟨uri, ipf⟩ := reference
  cases ipf <;> cases isRoot <;>
    simp [toChatVariable, createPromptVariableId, String.append_empty]

/-- C7: `createPromptVariableId` is a deterministic pure function of `(uri, isRoot)`,
and for every URI the root form differs from the non-root form. -/
theorem createPromptVariableId_root_distinct (u : URI) :
    (∀ u2 : URI, ∀ r1 r2 : Bool, u = u2 → r1 = r2 →
      createPromptVariableId u r1 = createPromptVariableId u2 r2) ∧
    createPromptVariableId u true ≠ createPromptVariableId u false := by
  constructor
  · intro u2 r1 r2 hu hr
    rw [hu, hr]
  · intro h
    have hlen := congrArg String.length h
    have e1 : ("vscode.prompt.instructions" : String).length = 26 := rfl
    have e2 : (".root" : String).length = 5 := rfl
    have e3 : ("__" : String).length = 2 := rfl
    have e4 : ("vscode.prompt.instructions__" : String).length = 28 := rfl
    have e5 : ("vscode.prompt.instructions.root__" : String).length = 33 := rfl
    simp [createPromptVariableId, String.length_append, e1, e2, e3, e4, e5] at hlen

/-- C7 witness at a concrete URI. -/
theorem createPromptVariableId_root_distinct_witness :
    createPromptVariableId
        { scheme := "file", authority := "", path := "/a/b.prompt.md", query := "",
          fragment := "" } true =
      createPromptVariableId
        { scheme := "file", authority := "", path := "/a/b.prompt.md", query := "",
          fragment := "" } true ∧
    createPromptVariableId
        { scheme := "file", authority := "", path := "/a/b.prompt.md", query := "",
          fragment := "" } true ≠
      createPromptVariableId
        { scheme := "file", authority := "", path := "/a/b.prompt.md", query := "",
          fragment := "" } false :=
  ⟨(createPromptVariableId_root_distinct _).1 _ true true rfl rfl,
    (createPromptVariableId_root_distinct _).2⟩

/-- C8: `isPromptFileChatVariable` holds exactly for file-kind entries whose name has
the string `prompt:` as a prefix, and is false for any entry whose name is
`file:<rest>`. -/
theorem isPromptFileChatVariable_characterization (v : IChatRequestVariableEntry) :
    (isPromptFileChatVariable v = true ↔
      v.kind = "file" ∧ ("prompt:").data <+: v.name.data) ∧
    (∀ s : String, v.name = ("file:") ++ s → isPromptFileChatVariable v = false) := by
  constructor
  · simp [isPromptFileChatVariable, isChatRequestFileEntry, strStartsWith,
      List.isPrefixOf_iff_prefix]
  · intro s hname
    simp [isPromptFileChatVariable, hname, strStartsWith_file_not_prompt]

/-- C8 witness: a concrete entry named `file:b.prompt.md` is not a prompt-file
variable. -/
theorem isPromptFileChatVariable_characterization_witness :
    isPromptFileChatVariable
        (toChatVariable
          { uri :=
              { scheme := "file", authority := "", path := "/a/b.prompt.md", query := "",
                fragment := "" },
            isPromptFile := false } false) = false :=
  (isPromptFileChatVariable_characterization _).2
    (basename
      { scheme := "file", authority := "", path := "/a/b.prompt.md", query := "",
        fragment := "" }) rfl

/-- C10: the prompt-file status of a reference node is exactly recoverable from the
variable entry `toChatVariable` produces: the produced entry satisfies
`isPromptFileChatVariable` if and only if the node's `isPromptFile` flag was set. -/
theorem isPromptFileChatVariable_toChatVariable_roundtrip (reference : RefNode)
    (isRoot : Bool) :
    isPromptFileChatVariable (toChatVariable reference isRoot) = reference.isPromptFile := by
  obtain ⟨uri, ipf⟩ := reference
  cases ipf <;>
    simp [toChatVariable, isPromptFileChatVariable, isChatRequestFileEntry,
      strStartsWith_append, strStartsWith_file_not_prompt]

/-! Theorems for the collection views and operations. -/

theorem chatAttachments_loop (l : List ChatPromptAttachmentModel)
    (acc : List IChatRequestVariableEntry) :
    List.foldl
        (fun result attachment =>
          (result ++
              List.map (fun link => toChatVariable link false)
                attachment.reference.allValidReferences) ++
            [toChatVariable { uri := attachment.reference.uri, isPromptFile := true } true])
        acc l =
      acc ++
        List.flatMap l
          (fun attachment =>
            List.map (fun link => toChatVariable link false)
                attachment.reference.allValidReferences ++
              [toChatVariable { uri := attachment.reference.uri, isPromptFile := true } true]) := by
  induction l generalizing acc with
  | nil => simp
  | cons a l ih =>
      rw [List.foldl_cons, ih, List.flatMap_cons]
      simp [List.append_assoc]

/-- C1: the `chatAttachments` view is exactly, per live handle in insertion order,
one non-root variable entry (with `isPromptFile` taken from the node) for every node
of the handle's `allValidReferences` in that array's order, followed by exactly one
root variable entry for the handle's top-level reference with `isPromptFile` forced
to `true`; in particular every descendant entry of an attachment precedes its own
root entry. -/
theorem chatAttachments_eq_spec (st : CollectionState) :
    ChatPromptAttachmentsCollection.chatAttachments st =
      ChatPromptAttachmentsCollection.chatAttachmentsSpec st := by
  unfold ChatPromptAttachmentsCollection.chatAttachments
    ChatPromptAttachmentsCollection.chatAttachmentsSpec
  rw [chatAttachments_loop]
  simp

/-! Lemmas about the keyed map. -/

theorem has_cons (k : String) (v : ChatPromptAttachmentModel) (m : DisposableMap)
    (key : String) :
    DisposableMap.has ((k, v) :: m) key = (k == key || DisposableMap.has m key) := by
  unfold DisposableMap.has
  by_cases hk : k = key
  · subst hk
    simp [List.lookup_cons]
  · have h1 : (key == k) = false := by simp [Ne.symm hk]
    have h2 : (k == key) = false := by simp [hk]
    simp [List.lookup_cons, h1, h2]

theorem countKey_cons (k : String) (v : ChatPromptAttachmentModel) (m : DisposableMap)
    (key : String) :
    ChatPromptAttachmentsCollection.countKey ((k, v) :: m) key =
      (if (k == key) then ChatPromptAttachmentsCollection.countKey m key + 1
      else ChatPromptAttachmentsCollection.countKey m key) := by
  unfold ChatPromptAttachmentsCollection.countKey
  by_cases hk : k = key <;> simp [List.filter_cons, hk]

theorem countKey_eq_zero_of_has_false (m : DisposableMap) (key : String)
    (h : DisposableMap.has m key = false) :
    ChatPromptAttachmentsCollection.countKey m key = 0 := by
  induction m with
  | nil => rfl
  | cons p m ih =>
      obtain ⟨k, v⟩ := p
      rw [has_cons] at h
      rw [countKey_cons]
      by_cases hk : k = key
      · rw [hk] at h
        simp at h
      · have h2 : (k == key) = false := by simp [hk]
        rw [h2] at h ⊢
        simp at h ⊢
        exact ih h

theorem has_append_single (m : DisposableMap) (key : String) (v : ChatPromptAttachmentModel) :
    DisposableMap.has (m ++ [(key, v)]) key = true := by
  induction m with
  | nil => simp [DisposableMap.has, List.lookup_cons]
  | cons p m ih =>
      obtain ⟨k, w⟩ := p
      rw [List.cons_append, has_cons, ih]
      simp

theorem countKey_append_single (m : DisposableMap) (key : String)
    (v : ChatPromptAttachmentModel) :
    ChatPromptAttachmentsCollection.countKey (m ++ [(key, v)]) key =
      ChatPromptAttachmentsCollection.countKey m key + 1 := by
  unfold ChatPromptAttachmentsCollection.countKey
  rw [List.filter_append]
  simp [List.filter_cons]

theorem has_deleteAndLeak (m : DisposableMap) (key : String) :
    DisposableMap.has (DisposableMap.deleteAndLeak m key) key = false := by
  induction m with
  | nil => rfl
  | cons p m ih =>
      obtain ⟨k, v⟩ := p
      unfold DisposableMap.deleteAndLeak
      rw [List.filter_cons]
      by_cases hk : k = key
      · simp only [hk]
        simp [DisposableMap.deleteAndLeak] at ih
        simp [ih]
      · have h2 : (k == key) = false := by simp [hk]
        simp only [h2]
        simp only [Bool.not_false, if_pos]
        rw [has_cons, h2]
        simp [DisposableMap.deleteAndLeak] at ih
        simp [ih]

theorem deleteAndLeak_idem (m : DisposableMap) (key : String) :
    DisposableMap.deleteAndLeak (DisposableMap.deleteAndLeak m key) key =
      DisposableMap.deleteAndLeak m key := by
  unfold DisposableMap.deleteAndLeak
  rw [List.filter_filter]
  apply List.filter_congr
  intro p hp
  cases h : (p.1 == key) <;> simp [h]

namespace ChatPromptAttachmentsCollection

/-- Helper: the full result of `add` on an absent key — returned boolean, new state,
and the ordered trace of observable steps. -/
theorem add_eq_of_not_has (create : URI → ChatPromptAttachmentModel) (st : CollectionState)
    (u : URI) (habs : st.attachments.has u.path = false) :
    add create st u =
      (false, { attachments := st.attachments ++ [(u.path, create u)] },
        [Step.wireUpdateListener (create u), Step.wireDisposeListener (create u),
          Step.store u.path (create u), Step.resolve (create u),
          Step.fireAdd (create u), Step.fireUpdate]) := by
  unfold add
  rw [habs]
  simp [DisposableMap.set, habs]

/-- Helper: `add` on a present key returns `true` and does nothing. -/
theorem add_eq_of_has (create : URI → ChatPromptAttachmentModel) (st : CollectionState)
    (u : URI) (hh : st.attachments.has u.path = true) :
    add create st u = (true, st, []) := by
  unfold add
  rw [hh]
  simp

/-- C2: membership identity is the normalized path component of the URI — on an
absent key, `add u1` returns `false`; a following `add u2` for any `u2` sharing
`u1`'s path returns `true` and adds nothing (the state is unchanged); and exactly
one handle exists for the key afterward. -/
theorem add_key_identity (create : URI → ChatPromptAttachmentModel) (st : CollectionState)
    (u1 u2 : URI) (hpath : u1.path = u2.path)
    (habs : st.attachments.has u1.path = false) :
    (add create st u1).1 = false ∧
    (add create (add create st u1).2.1 u2).1 = true ∧
    (add create (add create st u1).2.1 u2).2.1 = (add create st u1).2.1 ∧
    countKey (add create st u1).2.1.attachments u1.path = 1 := by
  have he := add_eq_of_not_has create st u1 habs
  have hhas2 : ((add create st u1).2.1).attachments.has u2.path = true := by
    rw [he, ← hpath]
    exact has_append_single st.attachments u1.path (create u1)
  have he2 := add_eq_of_has create (add create st u1).2.1 u2 hhas2
  refine ⟨by rw [he], by rw [he2], by rw [he2], ?_⟩
  · rw [he]
    show countKey (st.attachments ++ [(u1.path, create u1)]) u1.path = 1
    rw [countKey_append_single, countKey_eq_zero_of_has_false st.attachments u1.path habs]

/-- C2 witness: twice adding the same path (under two schemes) from the empty
collection. -/
theorem add_key_identity_witness :
    (add sampleCreate emptyState sampleUri).1 = false ∧
    (add sampleCreate (add sampleCreate emptyState sampleUri).2.1 sampleUri2).1 = true ∧
    (add sampleCreate (add sampleCreate emptyState sampleUri).2.1 sampleUri2).2.1 =
      (add sampleCreate emptyState sampleUri).2.1 ∧
    countKey (add sampleCreate emptyState sampleUri).2.1.attachments sampleUri.path = 1 :=
  add_key_identity sampleCreate emptyState sampleUri sampleUri2 rfl rfl

/-- C4: the callback `add` subscribes to a handle's disposal signal drops the
handle's entry with the leak-only deletion (membership for the key is gone
afterward), then fires the collection update event, then the removed event with
that handle, and its trace contains no handle disposal — handle-initiated teardown
never re-invokes disposal. -/
theorem onDisposeCallback_no_redispose (st : CollectionState) (key : String)
    (h : ChatPromptAttachmentModel) :
    (onDisposeCallback st key h).1.attachments = st.attachments.deleteAndLeak key ∧
    (onDisposeCallback st key h).1.attachments.has key = false ∧
    (onDisposeCallback st key h).2 = [Step.fireUpdate, Step.fireRemove h] ∧
    (∀ h2, Step.disposeHandle h2 ∉ (onDisposeCallback st key h).2) := by
  refine ⟨rfl, has_deleteAndLeak _ _, rfl, ?_⟩
  intro h2 hmem
  simp [onDisposeCallback] at hmem

/-- C5: for a successful `add` (key not present), the observable steps occur in
exactly this order: wire the handle-update subscription, wire the handle-disposal
subscription, store the handle under its key, trigger its resolution, fire `added`,
fire `update`. -/
theorem add_step_order (create : URI → ChatPromptAttachmentModel) (st : CollectionState)
    (u : URI) (habs : st.attachments.has u.path = false) :
    add create st u =
      (false, { attachments := st.attachments ++ [(u.path, create u)] },
        [Step.wireUpdateListener (create u), Step.wireDisposeListener (create u),
          Step.store u.path (create u), Step.resolve (create u),
          Step.fireAdd (create u), Step.fireUpdate]) :=
  add_eq_of_not_has create st u habs

/-- C5 witness: a successful `add` from the empty collection. -/
theorem add_step_order_witness :
    add sampleCreate emptyState sampleUri =
      (false,
        { attachments := emptyState.attachments ++ [(sampleUri.path, sampleCreate sampleUri)] },
        [Step.wireUpdateListener (sampleCreate sampleUri),
          Step.wireDisposeListener (sampleCreate sampleUri),
          Step.store sampleUri.path (sampleCreate sampleUri),
          Step.resolve (sampleCreate sampleUri),
          Step.fireAdd (sampleCreate sampleUri), Step.fireUpdate]) :=
  add_step_order sampleCreate emptyState sampleUri rfl

/-- C6: `allSettled` awaits exactly the snapshot of handles live at the moment of
the call, and the awaited `Promise.allSettled` combinator fulfills regardless of
the individual settle outcomes — it can never reject, whatever any handle's
underlying resolution did. -/
theorem allSettled_never_rejects (st : CollectionState) :
    (allSettled st).1 = st.attachments.valuesList ∧
    (allSettled st).2 = SettleOutcome.fulfilled ∧
    (∀ ps : List SettleOutcome, (promiseAllSettled ps).1 = SettleOutcome.fulfilled) :=
  ⟨rfl, rfl, fun _ => rfl⟩

/-- C9: `remove` on an absent key is a no-op — no events fire and the state is
unchanged (the call returns the collection for chaining); on a present key it
disposes the handle and drops it, leaving the key absent. -/
theorem remove_disposal (st : CollectionState) (u : URI) :
    (st.attachments.has u.path = false → remove st u = (st, [])) ∧
    (∀ h, st.attachments.get? u.path = some h →
      remove st u =
        ({ attachments := st.attachments.deleteAndLeak u.path },
          [Step.disposeHandle h, Step.fireUpdate, Step.fireRemove h]) ∧
      (remove st u).1.attachments.has u.path = false) := by
  constructor
  · intro habs
    unfold remove
    rw [habs]
    simp
  · intro h hget
    have hhas : st.attachments.has u.path = true := by
      unfold DisposableMap.has
      unfold DisposableMap.get? at hget
      rw [hget]
      rfl
    have hrm : remove st u =
        ({ attachments :=
            (st.attachments.deleteAndLeak u.path).deleteAndLeak u.path },
          [Step.disposeHandle h, Step.fireUpdate, Step.fireRemove h]) := by
      unfold remove deleteAndDispose
      rw [hhas]
      unfold DisposableMap.get? at hget ⊢
      rw [hget]
      simp [onDisposeCallback]
    rw [deleteAndLeak_idem] at hrm
    refine ⟨hrm, ?_⟩
    rw [hrm]
    exact has_deleteAndLeak _ _

/-- C9 witness: removing `sampleUri` from the one-element collection, and removing
it from the empty collection. -/
theorem remove_disposal_witness :
    remove sampleState sampleUri =
      ({ attachments := sampleState.attachments.deleteAndLeak sampleUri.path },
        [Step.disposeHandle sampleHandle, Step.fireUpdate, Step.fireRemove sampleHandle]) ∧
    (remove sampleState sampleUri).1.attachments.has sampleUri.path = false :=
  (remove_disposal sampleState sampleUri).2 sampleHandle (by decide)

end ChatPromptAttachmentsCollection

end Chat
